import Mathlib

/-!
# Verification of the camoufox-profile-manager profile store and session worker

Shallow embedding of `src/main_window.py` (camoufox-profile-manager):
the `ProxyConfig` and `Profile` data classes with their JSON
(de)serialization, the profile persistence functions, the
`CamoufoxWorker.run` signal trace, and the `MainWindow` controller slots
`_gather_form`, `_new_profile`, `_save_changes` and `_launch`.

Python dictionaries produced by `json.load` are modelled by the `JVal`
type of JSON values; a record is an association list `List (String × JVal)`.
Python `int` is modelled by `Int`; operations that can raise are modelled
in `Except String`.
-/

namespace Camoufox

/-- A JSON value as produced by Python's `json.load`.
(JSON floats are omitted: no claim and no persisted field uses them.) -/
inductive JVal where
  | jnull
  | jbool (b : Bool)
  | jint (n : Int)
  | jstr (s : String)
  | jobj (kvs : List (String × JVal))
deriving Repr

/-- Python `d.get(k, dflt)` on a dict (keys are unique; first match wins). -/
def pyGet (d : List (String × JVal)) (k : String) (dflt : JVal) : JVal :=
  match d.find? (fun kv => kv.1 = k) with
  | some kv => kv.2
  | none => dflt

/-- Python truthiness (`bool(x)` / `if x:` / `x or y`) on a JSON value. -/
def pyTruthy : JVal → Bool
  | .jnull => false
  | .jbool b => b
  | .jint n => n != 0
  | .jstr s => s != ""
  | .jobj kvs => !kvs.isEmpty

/-- Value of a non-empty all-digit character list, accumulator style;
`none` as soon as a non-digit appears. -/
def digitsVal : List Char → Nat → Option Nat
  | [], acc => some acc
  | c :: cs, acc =>
      if c.isDigit then digitsVal cs (acc * 10 + (c.toNat - 48)) else none

/-- Integer literal over characters: optional single leading sign, then at
least one digit. -/
def pyIntOfChars : List Char → Option Int
  | [] => none
  | '+' :: cs => if cs.isEmpty then none else (digitsVal cs 0).map Int.ofNat
  | '-' :: cs => if cs.isEmpty then none else (digitsVal cs 0).map (fun n => -(n : Int))
  | cs => (digitsVal cs 0).map Int.ofNat

/-- Python `int(s)` on a string: surrounding whitespace is stripped, an
optional single leading sign is allowed, anything else is a `ValueError`.
(Digit-group underscores are not modelled; no claim uses them.) -/
def pyIntOfString (s : String) : Option Int :=
  pyIntOfChars
    (((s.toList.dropWhile Char.isWhitespace).reverse.dropWhile Char.isWhitespace).reverse)

/-- Python `int(x)` on a JSON value: ints pass through, bools become 0/1,
numeric strings parse, everything else raises. -/
def pyInt : JVal → Except String Int
  | .jint n => .ok n
  | .jbool b => .ok (if b then 1 else 0)
  | .jstr s =>
      match pyIntOfString s with
      | some n => .ok n
      | none => .error ("ValueError: invalid literal for int: " ++ s)
  | .jnull => .error "TypeError: int() argument cannot be None"
  | .jobj _ => .error "TypeError: int() argument cannot be a dict"

/-- Reading a JSON value into a `str`-typed dataclass field. Python performs
no coercion here and would store a non-string value unchanged; the typed
model cannot represent such a `Profile`, so a present non-string value is
outside the model's domain and flagged as an error. Every claim is settled
on inputs whose string fields are strings (which `to_dict` always emits). -/
def pyStrField : JVal → Except String String
  | .jstr s => .ok s
  | _ => .error "model domain: non-string value in a str field"

/-- Is the value a JSON object (Python `isinstance(x, dict)`)? -/
def JVal.isObj : JVal → Bool
  | .jobj _ => true
  | _ => false

/-- Model of `os.path.join("C:\\", name)` under Windows path semantics (the app is
Windows-only: it persists `C:\`-rooted paths and looks for `camoufox.exe`).
The root ends with the separator, so for a name that carries no drive letter
and no leading separator the join simply appends the name. -/
def joinRoot (name : String) : String := "C:\\" ++ name

/-- The `ProxyConfig` dataclass (src/main_window.py lines 21-26). -/
structure ProxyConfig where
  host : String := ""
  port : Int := 0
  username : String := ""
  password : String := ""
deriving Repr, DecidableEq

/-- The dict returned by `ProxyConfig.to_proxy_dict` when the proxy is
active: a mandatory `server` entry, optional `username` / `password`. -/
structure ProxyDict where
  server : String
  username : Option String := none
  password : Option String := none
deriving Repr, DecidableEq

/-- Model of `ProxyConfig.to_proxy_dict` (src/main_window.py lines 28-36). -/
def ProxyConfig.to_proxy_dict (p : ProxyConfig) : Option ProxyDict :=
  if p.host = "" ∨ p.port = 0 then none
  else some
    { server := "http://" ++ p.host ++ ":" ++ toString p.port
      username := if p.username = "" then none else some p.username
      password := if p.password = "" then none else some p.password }

/-- The `Profile` dataclass (src/main_window.py lines 39-47). -/
structure Profile where
  name : String := "Profile"
  viewport_width : Int := 1280
  viewport_height : Int := 800
  fullscreen : Bool := false
  persistent_dir : String := ""
  use_geoip : Bool := false
  proxy : ProxyConfig := {}
deriving Repr, DecidableEq

/-- Model of `Profile.to_dict` (src/main_window.py lines 49-52): `asdict` in dataclass
field order, with the proxy as a nested dict. -/
def Profile.to_dict (p : Profile) : List (String × JVal) :=
  [ ("name", .jstr p.name)
  , ("viewport_width", .jint p.viewport_width)
  , ("viewport_height", .jint p.viewport_height)
  , ("fullscreen", .jbool p.fullscreen)
  , ("persistent_dir", .jstr p.persistent_dir)
  , ("use_geoip", .jbool p.use_geoip)
  , ("proxy", .jobj
      [ ("host", .jstr p.proxy.host)
      , ("port", .jint p.proxy.port)
      , ("username", .jstr p.proxy.username)
      , ("password", .jstr p.proxy.password) ]) ]

/-- Lines 56-58 of `Profile.from_dict`: `raw_proxy = d.get("proxy", {})`
followed by `if not isinstance(raw_proxy, dict): raw_proxy = {}`. -/
def rawProxyOf (d : List (String × JVal)) : List (String × JVal) :=
  match pyGet d "proxy" (.jobj []) with
  | .jobj kvs => kvs
  | _ => []

/-- Model of `Profile.from_dict` (src/main_window.py lines 54-79). A `ValueError` /
`TypeError` raised by one of the `int(...)` coercions propagates as
`Except.error`; `bool(...)` coercions are total truthiness tests. The proxy
port is `int(raw_proxy.get("port", 0) or 0)`: a falsy raw value is replaced
by `0` before the `int` coercion. -/
def Profile.from_dict (d : List (String × JVal)) : Except String Profile := do
  let raw_proxy := rawProxyOf d
  let name ← pyStrField (pyGet d "name" (.jstr "Profile"))
  let pd ← pyStrField (pyGet d "persistent_dir" (.jstr ""))
  let persistent_dir := if pd = "" then joinRoot name else pd
  let viewport_width ← pyInt (pyGet d "viewport_width" (.jint 1280))
  let viewport_height ← pyInt (pyGet d "viewport_height" (.jint 800))
  let host ← pyStrField (pyGet raw_proxy "host" (.jstr ""))
  let portRaw := pyGet raw_proxy "port" (.jint 0)
  let port ← pyInt (if pyTruthy portRaw then portRaw else .jint 0)
  let username ← pyStrField (pyGet raw_proxy "username" (.jstr ""))
  let password ← pyStrField (pyGet raw_proxy "password" (.jstr ""))
  pure
    { name := name
      viewport_width := viewport_width
      viewport_height := viewport_height
      fullscreen := pyTruthy (pyGet d "fullscreen" (.jbool false))
      persistent_dir := persistent_dir
      use_geoip := pyTruthy (pyGet d "use_geoip" (.jbool false))
      proxy :=
        { host := host, port := port, username := username, password := password } }

/-- The `Except.isOk` test as a plain boolean discriminator. -/
def isOkE {ε α : Type} : Except ε α → Bool
  | .ok _ => true
  | .error _ => false

instance {ε α : Type} [DecidableEq ε] [DecidableEq α] : DecidableEq (Except ε α) :=
  fun a b =>
    match a, b with
    | .ok x, .ok y =>
        if h : x = y then .isTrue (by rw [h]) else .isFalse (by simp [h])
    | .error x, .error y =>
        if h : x = y then .isTrue (by rw [h]) else .isFalse (by simp [h])
    | .ok _, .error _ => .isFalse (by simp)
    | .error _, .ok _ => .isFalse (by simp)

/-! ## Persistence (src/main_window.py lines 83-93) -/

/-- What `open(PROFILES_FILE)` + `json.load` can find: no file at all, a
syntactically valid JSON array of records, or malformed contents on which
`json.load` raises a `JSONDecodeError`. -/
inductive FileState where
  | absent
  | valid (records : List (List (String × JVal)))
  | malformed
deriving Repr

/-- Model of `load_profiles` (src/main_window.py lines 83-88). An absent file yields
`[]`; `json.load` on malformed contents raises, and nothing catches the
exception, so it propagates to the caller; on valid contents every record
goes through `Profile.from_dict`, and an exception raised by any record
propagates as well (the list comprehension produces no partial list). -/
def load_profiles : FileState → Except String (List Profile)
  | .absent => .ok []
  | .malformed => .error "json.decoder.JSONDecodeError: Expecting value"
  | .valid records => records.mapM Profile.from_dict

/-! ## The session worker `CamoufoxWorker.run` (src/main_window.py 109-172)

The worker's effect on the outside world, as far as the claims reach, is
the sequence of Qt signals it emits. `run` is re-expressed as a function
from the run's environment — which of the fallible external calls raise —
to the emitted signal trace. The stop flag only decides when the idle
loop exits, never whether the `finally` block runs, so it does not appear
in the trace model. -/

/-- One emitted Qt signal of `CamoufoxWorker`. -/
inductive Sig where
  | started (msg : String)
  | error (msg : String)
  | stopped (msg : String)
deriving Repr, DecidableEq

/-- Which of the fallible steps of one `CamoufoxWorker.run` raise, and with
what message. `camoufoxOk` is the module-level `CAMOUFOX_OK` import flag;
`initFails` covers everything before `self._ctx` is assigned (`os.makedirs`
and `Camoufox(**opts).__enter__()`); `setupFails` covers the page-setup
steps after `self._ctx` is assigned but before `started_ok` is emitted
(`pages` access, `extra.close` outside its guard, `new_page`); `idleFails`
is an unexpected exception after `started_ok`, inside the idle loop;
`closeFails` is `self._ctx.close()` raising in the `finally` block. -/
structure RunEnv where
  camoufoxOk : Bool
  initFails : Bool
  setupFails : Bool
  idleFails : Bool
  closeFails : Bool
  errText : String := "boom"
deriving Repr

/-- The signal trace of `CamoufoxWorker.run` (src/main_window.py 109-172).

Control flow of the source: if `CAMOUFOX_OK` is false, emit `error` and
`return` — this happens before the `try`, so no `stopped` follows. Inside
`try`: any exception lands in `except`, which emits
`"Failed to start Camoufox: …"`; the `finally` block closes `self._ctx`
when it was assigned (an exception there is caught and emitted as
`"Error while stopping session: …"`) and then always emits `stopped`. -/
def CamoufoxWorker.run (env : RunEnv) (profileName : String) : List Sig :=
  if !env.camoufoxOk then
    [Sig.error "Camoufox not available. Install with: pip install -U 'camoufox[geoip]' and run 'camoufox fetch'."]
  else
    let startFail := Sig.error ("Failed to start Camoufox: " ++ env.errText)
    let (body, ctxAssigned) :=
      if env.initFails then ([startFail], false)
      else if env.setupFails then ([startFail], true)
      else if env.idleFails then
        ([Sig.started ("Session started for '" ++ profileName ++ "'."), startFail], true)
      else ([Sig.started ("Session started for '" ++ profileName ++ "'.")], true)
    let closeEmits :=
      if ctxAssigned && env.closeFails then
        [Sig.error ("Error while stopping session: " ++ env.errText)]
      else []
    body ++ closeEmits ++ [Sig.stopped ("Session stopped for '" ++ profileName ++ "'.")]

/-- Discriminator for `stopped` signals. -/
def Sig.isStopped : Sig → Bool
  | .stopped _ => true
  | _ => false

/-! ## The `MainWindow` controller (src/main_window.py 179-395)

The slots that the claims reach are modelled as transitions on the
controller state. Widget contents are captured by a `FormState` snapshot
(text fields carry the raw text; `.strip()` is applied where the source
applies it). The persisted file is tracked as the argument of the last
`save_profiles` call. -/

/-- The text/value snapshot of the editor form widgets, as read by
`_gather_form`. -/
structure FormState where
  nameText : String := ""
  spinW : Int := 1280
  spinH : Int := 800
  fullscreenChecked : Bool := false
  proxyHostText : String := ""
  proxyPortValue : Int := 0
  proxyUserText : String := ""
  proxyPassText : String := ""
  geoipChecked : Bool := false
  storageText : String := ""
deriving Repr, DecidableEq

/-- Python `str.strip()`: drop surrounding whitespace. -/
def pyStrip (s : String) : String :=
  ⟨((s.toList.dropWhile Char.isWhitespace).reverse.dropWhile Char.isWhitespace).reverse⟩

/-- Controller state of `MainWindow`: the in-memory profile list, the
current selection index (`-1` = nothing selected), whether a worker exists
and `isRunning()`, and the contents last written to the persisted file
(`none` before any `save_profiles` call of this session). -/
structure WindowState where
  profiles : List Profile
  current_index : Int := -1
  workerRunning : Bool := false
  savedFile : Option (List Profile) := none
deriving Repr, DecidableEq

/-- Model of `MainWindow._current` (src/main_window.py 253-256). -/
def WindowState.currentProfile (st : WindowState) : Option Profile :=
  if h : 0 ≤ st.current_index ∧ st.current_index < st.profiles.length then
    some (st.profiles.get ⟨st.current_index.toNat, by omega⟩)
  else none

/-- Python list item assignment `l[i] = x`: a negative index counts from
the end. An out-of-range index raises `IndexError`; the callers below only
reach this with the list widget's current row, which is `-1` (filtered out
before assignment) or in range, so the out-of-range case is modelled as
leaving the list unchanged. -/
def pyListSet (l : List Profile) (i : Int) (x : Profile) : List Profile :=
  let j := if i < 0 then i + l.length else i
  if 0 ≤ j ∧ j < l.length then l.set j.toNat x else l

/-- Model of `MainWindow._gather_form` (src/main_window.py 279-295): builds the
profile from the form widgets. Every `Profile` field is overwritten from
the form, so the pre-existing object (`self._current() or Profile()`) only
matters for identity, not for the resulting value; the blank name falls
back to `"Profile"` and a blank storage path falls back to
`os.path.join("C:\\", name)`. -/
def gather_form (form : FormState) : Profile :=
  let name := if pyStrip form.nameText = "" then "Profile" else pyStrip form.nameText
  let s := pyStrip form.storageText
  { name := name
    viewport_width := form.spinW
    viewport_height := form.spinH
    fullscreen := form.fullscreenChecked
    persistent_dir := if s = "" then joinRoot name else s
    use_geoip := form.geoipChecked
    proxy :=
      { host := pyStrip form.proxyHostText
        port := form.proxyPortValue
        username := pyStrip form.proxyUserText
        password := pyStrip form.proxyPassText } }

/-- Model of `MainWindow._new_profile` (src/main_window.py 314-322): append
`Profile(name=f"Profile {len+1}")` with storage defaulted to
`C:\<name>`, persist the whole list, and select the new row (the
`setCurrentRow` call fires `_on_select_profile`, which updates
`current_index`). -/
def MainWindow.new_profile (st : WindowState) : WindowState :=
  let name := "Profile " ++ toString (st.profiles.length + 1)
  let p : Profile := { name := name, persistent_dir := joinRoot name }
  let profiles := st.profiles ++ [p]
  { st with
    profiles := profiles
    savedFile := some profiles
    current_index := (profiles.length : Int) - 1 }

/-- Model of `MainWindow._save_changes` (src/main_window.py 338-346): with no
selection it delegates to `_new_profile`; otherwise it overwrites the slot
at `current_index` with the gathered form and rewrites the whole file. -/
def MainWindow.save_changes (st : WindowState) (form : FormState) : WindowState :=
  if st.current_index = -1 then
    MainWindow.new_profile st
  else
    let prof := gather_form form
    let profiles := pyListSet st.profiles st.current_index prof
    { st with profiles := profiles, savedFile := some profiles }

/-- The observable outcome of one `_launch` click. -/
inductive LaunchOutcome where
  /-- Status-bar notice `"A session is already running"`; nothing else. -/
  | busyNotice
  /-- Message box `"Create or select a profile first."`; nothing else. -/
  | noProfileNotice
  /-- Camoufox-missing warning box, after the edits were persisted. -/
  | camoufoxWarning
  /-- A worker was created and started with this profile and launch size. -/
  | launched (prof : Profile) (size : Int × Int)
deriving Repr, DecidableEq

/-- Model of `MainWindow._launch` (src/main_window.py 353-383). Order of the source:
reject while a worker is running; reject when nothing is selected; persist
the gathered form into the selected slot and rewrite the file; reject when
`CAMOUFOX_OK` is false (after persisting); derive the launch size from the
screen's available geometry when fullscreen else from the viewport; create
and start the worker. -/
def MainWindow.launch (st : WindowState) (form : FormState) (camoufoxOk : Bool)
    (screenW screenH : Int) : WindowState × LaunchOutcome :=
  if st.workerRunning then
    (st, .busyNotice)
  else if st.current_index = -1 then
    (st, .noProfileNotice)
  else
    let prof := gather_form form
    let profiles := pyListSet st.profiles st.current_index prof
    let st := { st with profiles := profiles, savedFile := some profiles }
    if !camoufoxOk then
      (st, .camoufoxWarning)
    else
      let launch_size :=
        if prof.fullscreen then (screenW, screenH)
        else (prof.viewport_width, prof.viewport_height)
      ({ st with workerRunning := true }, .launched prof launch_size)

/-! ## Launch-size plumbing inside `CamoufoxWorker.run` (lines 113-118) -/

/-- Lines 114 and 117 of `CamoufoxWorker.run`: `W, H = self.launch_size if
self.launch_size else (viewport_width, viewport_height)` followed by
`"window": (W + 2, H + 88)`. A present launch size is a 2-tuple and hence
always truthy in Python. -/
def windowOption (launch_size : Option (Int × Int)) (prof : Profile) : Int × Int :=
  let wh := launch_size.getD (prof.viewport_width, prof.viewport_height)
  (wh.1 + 2, wh.2 + 88)

/-- The launch-size derivation of `MainWindow._launch` (lines 371-376) as
its own function: the screen's available geometry when fullscreen,
otherwise the profile viewport. -/
def launchSize (prof : Profile) (screenW screenH : Int) : Int × Int :=
  if prof.fullscreen then (screenW, screenH)
  else (prof.viewport_width, prof.viewport_height)

end Camoufox

/-! ## Helper lemmas -/

namespace Camoufox

lemma exceptBind_eq_ok {ε α β : Type} {x : Except ε α} {f : α → Except ε β} {b : β} :
    (x >>= f = .ok b) ↔ ∃ a, x = .ok a ∧ f a = .ok b := by
  cases x with
  | ok a => simp [Bind.bind, Except.bind]
  | error e =>
      constructor
      · intro h; simp [Bind.bind, Except.bind] at h
      · rintro ⟨a, ha, -⟩; cases ha

lemma exceptPure_eq_ok {ε α : Type} {a b : α} :
    (pure a : Except ε α) = .ok b ↔ a = b := by
  constructor
  · intro h; cases h; rfl
  · intro h; cases h; rfl

/-- Inversion of a successful `Profile.from_dict` run: every fallible step
succeeded and the resulting profile is built from the extracted values. -/
lemma from_dict_ok_inv {d : List (String × JVal)} {p : Profile}
    (h : Profile.from_dict d = .ok p) :
    ∃ name pd vw vh host port user pass,
      pyStrField (pyGet d "name" (.jstr "Profile")) = .ok name ∧
      pyStrField (pyGet d "persistent_dir" (.jstr "")) = .ok pd ∧
      pyInt (pyGet d "viewport_width" (.jint 1280)) = .ok vw ∧
      pyInt (pyGet d "viewport_height" (.jint 800)) = .ok vh ∧
      pyStrField (pyGet (rawProxyOf d) "host" (.jstr "")) = .ok host ∧
      pyInt (if pyTruthy (pyGet (rawProxyOf d) "port" (.jint 0)) then pyGet (rawProxyOf d) "port" (.jint 0) else .jint 0) = .ok port ∧
      pyStrField (pyGet (rawProxyOf d) "username" (.jstr "")) = .ok user ∧
      pyStrField (pyGet (rawProxyOf d) "password" (.jstr "")) = .ok pass ∧
      p = { name := name, viewport_width := vw, viewport_height := vh,
            fullscreen := pyTruthy (pyGet d "fullscreen" (.jbool false)),
            persistent_dir := if pd = "" then joinRoot name else pd,
            use_geoip := pyTruthy (pyGet d "use_geoip" (.jbool false)),
            proxy := ⟨host, port, user, pass⟩ } := by
  unfold Profile.from_dict at h
  simp only [exceptBind_eq_ok, exceptPure_eq_ok] at h
  obtain ⟨name, h1, pd, h2, vw, h3, vh, h4, host, h5, port, h6, user, h7, pass, h8, h9⟩ := h
  exact ⟨name, pd, vw, vh, host, port, user, pass, h1, h2, h3, h4, h5, h6, h7, h8, h9.symm⟩

/-- Deserializing a serialized profile: every field comes back unchanged
except that an empty `persistent_dir` is backfilled with the derived
default path. -/
lemma from_dict_to_dict (p : Profile) :
    Profile.from_dict p.to_dict =
      .ok { p with persistent_dir := if p.persistent_dir = "" then joinRoot p.name else p.persistent_dir } := by
  obtain ⟨n, vw, vh, fs, pd, geo, ph, po, pu, pw⟩ := p
  by_cases hpo : po = 0
  · subst hpo; rfl
  · unfold Profile.from_dict Profile.to_dict rawProxyOf
    simp [pyGet, pyStrField, pyInt, pyTruthy, hpo, Bind.bind, Except.bind, pure, Except.pure]

lemma joinRoot_ne_empty (n : String) : joinRoot n ≠ "" := by
  intro h
  have h2 := congrArg String.length h
  simp [joinRoot, String.length_append] at h2
  exact absurd h2.1 (by decide)

/-- A profile produced by `Profile.from_dict` never carries an empty
`persistent_dir`: the default backfill path is always non-empty. -/
lemma from_dict_ok_pd_ne {d : List (String × JVal)} {p : Profile}
    (h : Profile.from_dict d = .ok p) : p.persistent_dir ≠ "" := by
  obtain ⟨name, pd, vw, vh, host, port, user, pass, -, -, -, -, -, -, -, -, h9⟩ :=
    from_dict_ok_inv h
  subst h9
  by_cases hpd : pd = "" <;> simp [hpd, joinRoot_ne_empty]

/-- A proxy entry that is not a dict is replaced by the empty dict
(line 57-58 of the source). -/
lemma rawProxyOf_of_not_obj {d : List (String × JVal)}
    (h : (pyGet d "proxy" (JVal.jobj [])).isObj = false) : rawProxyOf d = [] := by
  unfold rawProxyOf
  cases hv : pyGet d "proxy" (JVal.jobj []) <;> simp_all [JVal.isObj]

/-! ## Claim theorems -/

/-- C1. Serialization round-trip: a `Profile` whose `persistent_dir` is
non-empty (the default-backfill normal form) satisfies
`from_dict (to_dict p) = ok p`; a profile serialized with an empty
`persistent_dir` round-trips to the derived default path
`os.path.join("C:\\", name)`, not to the empty string. -/
theorem serialization_round_trip (p : Profile) :
    (p.persistent_dir ≠ "" → Profile.from_dict p.to_dict = .ok p) ∧
    (p.persistent_dir = "" →
      Profile.from_dict p.to_dict = .ok { p with persistent_dir := joinRoot p.name }) := by
  constructor
  · intro h; rw [from_dict_to_dict]; simp [h]
  · intro h; rw [from_dict_to_dict]; simp [h]

theorem serialization_round_trip_witness :
    (Profile.from_dict (Profile.to_dict { name := "A", persistent_dir := "D:\\data" }) =
      .ok { name := "A", persistent_dir := "D:\\data" }) ∧
    (Profile.from_dict (Profile.to_dict { name := "A" }) =
      .ok { name := "A", persistent_dir := "C:\\A" }) :=
  ⟨(serialization_round_trip _).1 (by decide),
   (serialization_round_trip { name := "A" }).2 rfl⟩

/-- C2. Proxy activity predicate: `to_proxy_dict` is `None` iff the host is
empty or the port is zero; otherwise its `server` field is
`"http://{host}:{port}"` and the `username` / `password` keys are present
exactly when the corresponding field is non-empty. -/
theorem proxy_activity_predicate (p : ProxyConfig) :
    (p.to_proxy_dict = none ↔ (p.host = "" ∨ p.port = 0)) ∧
    (p.host ≠ "" → p.port ≠ 0 →
      p.to_proxy_dict = some
        { server := "http://" ++ p.host ++ ":" ++ toString p.port
          username := if p.username = "" then none else some p.username
          password := if p.password = "" then none else some p.password }) := by
  constructor
  · unfold ProxyConfig.to_proxy_dict
    split
    · simp_all
    · simp_all
  · intro h1 h2
    simp [ProxyConfig.to_proxy_dict, h1, h2]

theorem proxy_activity_predicate_witness :
    (ProxyConfig.to_proxy_dict ⟨"", 0, "", ""⟩ = none) ∧
    (ProxyConfig.to_proxy_dict ⟨"h", 8080, "u", ""⟩ =
      some { server := "http://h:8080", username := some "u", password := none }) :=
  ⟨(proxy_activity_predicate ⟨"", 0, "", ""⟩).1.mpr (Or.inl rfl),
   by simpa using (proxy_activity_predicate ⟨"h", 8080, "u", ""⟩).2 (by decide) (by decide)⟩

/-- C3, counterexample. The claim says a `stopped` notification is emitted
on every exit path, including the library being unavailable. It is not:
when `CAMOUFOX_OK` is false, `run` emits an `error` and returns before the
`try`/`finally`, so no `stopped` signal is ever emitted for that session. -/
theorem stopped_missing_when_unavailable_cex :
    ¬ ((CamoufoxWorker.run ⟨false, false, false, false, false, "x"⟩ "P").countP
        Sig.isStopped = 1) := by decide

/-- C3, amended. On every exit path of a run in which the library is
available — normal stop, startup failure, exception during page setup or
during the idle loop, with or without a teardown error — exactly one
`stopped` notification is emitted; when the library is unavailable the
worker emits a single `error` and no `stopped` notification. -/
theorem stop_always_notifies_amended (env : RunEnv) (name : String) :
    (env.camoufoxOk = true →
      (CamoufoxWorker.run env name).countP Sig.isStopped = 1) ∧
    (env.camoufoxOk = false →
      (CamoufoxWorker.run env name).countP Sig.isStopped = 0) := by
  obtain ⟨ok, i, s, idl, c, e⟩ := env
  constructor
  · intro h
    cases h
    cases i <;> cases s <;> cases idl <;> cases c <;>
      simp [CamoufoxWorker.run, Sig.isStopped, List.countP_cons, List.countP_nil,
        List.countP_append]
  · intro h
    cases h
    simp [CamoufoxWorker.run, Sig.isStopped, List.countP_cons, List.countP_nil]

theorem stop_always_notifies_amended_witness :
    ((CamoufoxWorker.run ⟨true, true, false, false, true, "x"⟩ "P").countP Sig.isStopped = 1) ∧
    ((CamoufoxWorker.run ⟨false, false, false, false, false, "x"⟩ "P").countP Sig.isStopped = 0) :=
  ⟨(stop_always_notifies_amended ⟨true, true, false, false, true, "x"⟩ "P").1 rfl,
   (stop_always_notifies_amended ⟨false, false, false, false, false, "x"⟩ "P").2 rfl⟩

/-- C4. Launch-size derivation: the requested browser window size is
(effective width + 2, effective height + 88), where the effective size is
the screen's available geometry when fullscreen is requested and the
profile viewport otherwise; in particular viewport (1280, 800) without
fullscreen requests (1282, 888), and available geometry (1920, 1040) with
fullscreen requests (1922, 1128). -/
theorem launch_size_derivation (prof : Profile) (screenW screenH : Int) :
    windowOption (some (launchSize prof screenW screenH)) prof =
      ((if prof.fullscreen then screenW else prof.viewport_width) + 2,
       (if prof.fullscreen then screenH else prof.viewport_height) + 88) ∧
    windowOption
        (some (launchSize
          { fullscreen := false, viewport_width := 1280, viewport_height := 800 } 1920 1040))
        { fullscreen := false, viewport_width := 1280, viewport_height := 800 } = (1282, 888) ∧
    windowOption (some (launchSize { fullscreen := true } 1920 1040))
        { fullscreen := true } = (1922, 1128) := by
  refine ⟨?_, by decide, by decide⟩
  by_cases h : prof.fullscreen <;> simp [windowOption, launchSize, h]

/-- C5. Malformed persisted file: `load_profiles` on a file whose contents
`json.load` cannot parse propagates the parse error to its caller; it never
returns a list (empty or partial). -/
theorem malformed_file_load_fails :
    load_profiles FileState.malformed =
      .error "json.decoder.JSONDecodeError: Expecting value" ∧
    isOkE (load_profiles FileState.malformed) = false :=
  ⟨rfl, rfl⟩

/-- C6, counterexample. The claim says `Profile.from_dict` treats a
malformed proxy sub-record as entirely absent and that a non-numeric port
coerces to 0. In fact a truthy non-numeric port survives the `or 0`
defaulting and reaches `int(...)`, which raises a `ValueError`: a record
whose proxy dict carries port `"abc"` makes `from_dict` fail. -/
theorem from_dict_port_raises_cex :
    isOkE (Profile.from_dict [("proxy", JVal.jobj [("port", JVal.jstr "abc")])]) = false := by
  decide

/-- C6, amended. A proxy entry that is not a dict is treated as entirely
absent (every proxy field takes its default), and a falsy port value
(`null`, `""`, `0`, `{}`) coerces to 0 meaning "no proxy"; but a truthy
non-numeric port value makes `from_dict` raise rather than default. -/
theorem proxy_defaulting_amended (d : List (String × JVal)) (p : Profile) :
    ((pyGet d "proxy" (JVal.jobj [])).isObj = false →
      Profile.from_dict d = .ok p →
      p.proxy = { host := "", port := 0, username := "", password := "" }) ∧
    (pyTruthy (pyGet (rawProxyOf d) "port" (JVal.jint 0)) = false →
      Profile.from_dict d = .ok p → p.proxy.port = 0) := by
  constructor
  · intro hobj hok
    obtain ⟨name, pd, vw, vh, host, port, user, pass, -, -, -, -, h5, h6, h7, h8, h9⟩ :=
      from_dict_ok_inv hok
    rw [rawProxyOf_of_not_obj hobj] at h5 h6 h7 h8
    simp [pyGet, pyStrField, pyTruthy, pyInt] at h5 h6 h7 h8
    subst h9
    cases h5; cases h6; cases h7; cases h8
    rfl
  · intro hport hok
    obtain ⟨name, pd, vw, vh, host, port, user, pass, -, -, -, -, -, h6, -, -, h9⟩ :=
      from_dict_ok_inv hok
    rw [hport] at h6
    simp [pyInt] at h6
    subst h9
    cases h6
    rfl

theorem proxy_defaulting_amended_witness :
    ({ persistent_dir := "C:\\Profile" } : Profile).proxy =
      { host := "", port := 0, username := "", password := "" } ∧
    ({ persistent_dir := "C:\\Profile" } : Profile).proxy.port = 0 :=
  ⟨(proxy_defaulting_amended [("proxy", JVal.jstr "oops")] _).1 (by decide) (by decide),
   (proxy_defaulting_amended [("proxy", JVal.jobj [("port", JVal.jnull)])] _).2
     (by decide) (by decide)⟩

/-- C7. Single-session exclusivity: a launch request while the worker
exists and is running is rejected with the status-bar notice and changes
nothing — the profile list, the file, the selection and the single worker
slot are untouched, and no second worker is created or queued. -/
theorem single_session_exclusivity (st : WindowState) (form : FormState)
    (camoufoxOk : Bool) (screenW screenH : Int) (h : st.workerRunning = true) :
    MainWindow.launch st form camoufoxOk screenW screenH = (st, LaunchOutcome.busyNotice) := by
  simp [MainWindow.launch, h]

theorem single_session_exclusivity_witness :
    MainWindow.launch ⟨[{ name := "A" }], 0, true, none⟩ {} true 1920 1040 =
      (⟨[{ name := "A" }], 0, true, none⟩, LaunchOutcome.busyNotice) :=
  single_session_exclusivity _ _ _ _ _ rfl

/-- C8. Defaulting idempotence: if `from_dict d` succeeds with profile `p`,
then serializing and re-loading `p` gives `p` back, so
`from_dict (to_dict (from_dict d)) = from_dict d` on every record on which
deserialization succeeds. -/
theorem defaulting_idempotence (d : List (String × JVal)) (p : Profile)
    (h : Profile.from_dict d = .ok p) :
    Profile.from_dict p.to_dict = .ok p := by
  have hpd := from_dict_ok_pd_ne h
  rw [from_dict_to_dict]
  simp [hpd]

theorem defaulting_idempotence_witness :
    Profile.from_dict (Profile.to_dict { persistent_dir := "C:\\Profile" }) =
      .ok { persistent_dir := "C:\\Profile" } :=
  defaulting_idempotence [] _ (by decide)

/-- C9, counterexample. The claim says a launch request leaves the profile
list and the persisted file unchanged. It does not: `_launch` with a valid
selection persists the gathered form before starting ("persist edits before
launch"), so launching with form contents that differ from the stored
profile rewrites both the in-memory slot and the file. -/
theorem launch_mutates_cex :
    ((MainWindow.launch ⟨[{ name := "A" }], 0, false, none⟩ { nameText := "B" } true
        1920 1040).1.profiles ≠ [({ name := "A" } : Profile)]) ∧
    ((MainWindow.launch ⟨[{ name := "A" }], 0, false, none⟩ { nameText := "B" } true
        1920 1040).1.savedFile ≠ (none : Option (List Profile))) := by decide

/-- C9, amended. The save action overwrites the slot at the selected index
with the gathered form and rewrites the whole file — and a launch request
with a valid selection and no running worker does exactly the same before
starting the session; only a rejected launch (worker already running, or
no selection) leaves the list and the file unchanged. -/
theorem mutation_discipline_amended (st : WindowState) (form : FormState)
    (camoufoxOk : Bool) (screenW screenH : Int) :
    (st.current_index ≠ -1 →
      (MainWindow.save_changes st form).profiles =
        pyListSet st.profiles st.current_index (gather_form form) ∧
      (MainWindow.save_changes st form).savedFile =
        some (pyListSet st.profiles st.current_index (gather_form form))) ∧
    (st.workerRunning = false → st.current_index ≠ -1 →
      (MainWindow.launch st form camoufoxOk screenW screenH).1.profiles =
        pyListSet st.profiles st.current_index (gather_form form) ∧
      (MainWindow.launch st form camoufoxOk screenW screenH).1.savedFile =
        some (pyListSet st.profiles st.current_index (gather_form form))) ∧
    (st.workerRunning = true →
      (MainWindow.launch st form camoufoxOk screenW screenH).1 = st) ∧
    (st.workerRunning = false → st.current_index = -1 →
      (MainWindow.launch st form camoufoxOk screenW screenH).1 = st) := by
  refine ⟨fun h1 => ?_, fun h1 h2 => ?_, fun h1 => ?_, fun h1 h2 => ?_⟩
  · simp [MainWindow.save_changes, h1]
  · by_cases hc : camoufoxOk <;> simp [MainWindow.launch, h1, h2, hc]
  · simp [MainWindow.launch, h1]
  · simp [MainWindow.launch, h1, h2]

theorem mutation_discipline_amended_witness :
    ((MainWindow.save_changes ⟨[{ name := "A" }], 0, false, none⟩ { nameText := "B" }).profiles =
       pyListSet [{ name := "A" }] 0 (gather_form { nameText := "B" }) ∧
     (MainWindow.save_changes ⟨[{ name := "A" }], 0, false, none⟩ { nameText := "B" }).savedFile =
       some (pyListSet [{ name := "A" }] 0 (gather_form { nameText := "B" }))) ∧
    (MainWindow.launch ⟨[{ name := "A" }], 0, true, none⟩ {} true 0 0).1 =
      ⟨[{ name := "A" }], 0, true, none⟩ :=
  ⟨(mutation_discipline_amended ⟨[{ name := "A" }], 0, false, none⟩ { nameText := "B" }
      true 0 0).1 (by decide),
   (mutation_discipline_amended ⟨[{ name := "A" }], 0, true, none⟩ {} true 0 0).2.2.1 rfl⟩

/-- C10. Triggering save with no selection (index -1) is neither a failure
nor a no-op: it delegates to the new-profile action, which appends a
profile named `"Profile {n+1}"` (n the current list length) whose
`persistent_dir` is the default path derived from that name under the
fixed root, and immediately persists the whole list. -/
theorem save_without_selection_creates (st : WindowState) (form : FormState)
    (h : st.current_index = -1) :
    MainWindow.save_changes st form = MainWindow.new_profile st ∧
    (MainWindow.new_profile st).profiles =
      st.profiles ++
        [{ name := "Profile " ++ toString (st.profiles.length + 1),
           persistent_dir := joinRoot ("Profile " ++ toString (st.profiles.length + 1)) }] ∧
    (MainWindow.new_profile st).savedFile = some ((MainWindow.new_profile st).profiles) ∧
    (MainWindow.new_profile st).profiles.length = st.profiles.length + 1 := by
  refine ⟨by simp [MainWindow.save_changes, h], rfl, rfl, by simp [MainWindow.new_profile]⟩

theorem save_without_selection_creates_witness :
    MainWindow.save_changes ⟨[], -1, false, none⟩ {} = MainWindow.new_profile ⟨[], -1, false, none⟩ ∧
    (MainWindow.new_profile ⟨[], -1, false, none⟩).profiles =
      [{ name := "Profile 1", persistent_dir := "C:\\Profile 1" }] :=
  ⟨(save_without_selection_creates ⟨[], -1, false, none⟩ {} rfl).1, by decide⟩

end Camoufox
